import Mathlib

/-!
Verification of the point-wise Factorization Machine recommender
(src/voice_rec_sys/Recommender/FMRecommender.py, class PointFM).

Shallow embedding conventions:
* Embedding tables (torch nn.Embedding weights) are lists of rows of
  rationals; a bias table of shape (n, 1) is a plain list of rationals.
  Index lookup is row retrieval; exact rational arithmetic stands in for
  floating point.
* The scoring function forward (lines 99-121) and predict (lines 199-209)
  are pure and live over ℚ.
* The training loop fit (lines 123-197) is modelled with explicit state
  passing: the learnable-parameter bundle is the state, the external
  autograd+SGD update (loss.backward(); optimizer.step(), both calls into
  the torch library, not code of this repository) is an explicit function
  argument, and Python exceptions become Except values.  Loss values are
  real numbers because the L2 norm and the logistic criterion are
  irrational.
* Device placement (.cuda() / .cpu()) and float non-finiteness
  (torch.isnan) are modelled by small explicit types (Dev, FloatVal).
-/

/-- Errors that fit/predict can raise (Python exceptions). -/
inductive FitError where
  /-- ValueError at line 136: invalid loss type, message carries self.loss_type. -/
  | configErr (lossType : String)
  /-- ValueError at line 183: loss failed the torch.isnan check. -/
  | numericErr
  /-- RuntimeError from tensor.cuda() when CUDA is not available. -/
  | deviceErr
  /-- TypeError from an embedding lookup applied to None. -/
  | lookupErr
  deriving DecidableEq

/-- The learnable-parameter bundle of PointFM (constructor lines 56-93):
embedding tables as lists of rows, (n, 1) bias tables as lists of scalars,
and the global bias.  The gender/age tables are only allocated by the
constructor for feature modes 0/1/2; here they are always present and the
feature-mode branches guard every access, exactly as in forward/fit. -/
structure FMParams where
  embed_user : List (List ℚ)
  embed_item : List (List ℚ)
  u_bias : List ℚ
  i_bias : List ℚ
  embed_gender : List (List ℚ)
  g_bias : List ℚ
  embed_age : List (List ℚ)
  a_bias : List ℚ
  bias_ : ℚ
  deriving DecidableEq

/-- The PointFM model object: the hyperparameters fit/forward read, plus
the parameter bundle.  gpuid and the optimizer/initializer name strings
are dropped: no claim mentions them and fit reads none of them (the only
optimizer path is plain SGD at rate lr, which is part of the external
update function). -/
structure PointFM where
  epochs : Nat
  lr : ℚ
  reg_1 : ℚ
  reg_2 : ℚ
  loss_type : String
  feature : Int
  early_stop : Bool
  params : FMParams
  deriving DecidableEq

/-- One batch yielded by the train_loader (a 5-tuple, lines 146). -/
structure Batch where
  user : List Nat
  item : List Nat
  gender : List Nat
  age : List Nat
  label : List ℚ
  deriving DecidableEq

/-- (a * b).sum(dim=-1): elementwise product summed over the factor axis. -/
def dotList (a b : List ℚ) : ℚ := (List.zipWith (fun x y => x * y) a b).sum

/-- Embedding-table row lookup, nn.Embedding(idx). -/
def rowOf (w : List (List ℚ)) (i : Nat) : List ℚ := w.getD i []

/-- Bias-table lookup, an (n, 1) nn.Embedding read as a scalar. -/
def biasOf (v : List ℚ) (i : Nat) : ℚ := v.getD i 0

/-- Lines 103-104 of forward, the per-example base prediction:
(embed_user * embed_item).sum + u_bias + i_bias + bias_. -/
def baseScore (p : FMParams) (u i : Nat) : ℚ :=
  dotList (rowOf p.embed_user u) (rowOf p.embed_item i)
    + biasOf p.u_bias u + biasOf p.i_bias i + p.bias_

/-- forward, lines 99-121, over the parameter bundle p.  The batch is given
by index lists; gender/age are Option, none standing for Python's None
default.  In an active feature mode a None side-feature makes the
embedding lookup fail (Python TypeError), modelled as none.  The result
pred.view(-1) is the flat list of per-example scores in batch order; the
additions appear in source order. -/
def forwardB (feature : Int) (p : FMParams) (user item : List Nat)
    (gender age : Option (List Nat)) : Option (List ℚ) :=
  if feature = 0 then
    match gender with
    | none => none
    | some gs => some ((List.range user.length).map fun k =>
        baseScore p (user.getD k 0) (item.getD k 0)
          + dotList (rowOf p.embed_gender (gs.getD k 0)) (rowOf p.embed_user (user.getD k 0))
          + dotList (rowOf p.embed_gender (gs.getD k 0)) (rowOf p.embed_item (item.getD k 0))
          + biasOf p.g_bias (gs.getD k 0))
  else if feature = 1 then
    match age with
    | none => none
    | some av => some ((List.range user.length).map fun k =>
        baseScore p (user.getD k 0) (item.getD k 0)
          + dotList (rowOf p.embed_age (av.getD k 0)) (rowOf p.embed_user (user.getD k 0))
          + dotList (rowOf p.embed_age (av.getD k 0)) (rowOf p.embed_item (item.getD k 0))
          + biasOf p.a_bias (av.getD k 0))
  else if feature = 2 then
    match gender, age with
    | some gs, some av => some ((List.range user.length).map fun k =>
        baseScore p (user.getD k 0) (item.getD k 0)
          + dotList (rowOf p.embed_gender (gs.getD k 0)) (rowOf p.embed_user (user.getD k 0))
          + dotList (rowOf p.embed_gender (gs.getD k 0)) (rowOf p.embed_item (item.getD k 0))
          + dotList (rowOf p.embed_age (av.getD k 0)) (rowOf p.embed_user (user.getD k 0))
          + dotList (rowOf p.embed_age (av.getD k 0)) (rowOf p.embed_item (item.getD k 0))
          + dotList (rowOf p.embed_age (av.getD k 0)) (rowOf p.embed_gender (gs.getD k 0))
          + biasOf p.g_bias (gs.getD k 0) + biasOf p.a_bias (av.getD k 0))
    | _, _ => none
  else
    some ((List.range user.length).map fun k =>
      baseScore p (user.getD k 0) (item.getD k 0))

/-- PointFM.forward on the model's own parameters. -/
def PointFM.forward (m : PointFM) (user item : List Nat)
    (gender age : Option (List Nat)) : Option (List ℚ) :=
  forwardB m.feature m.params user item gender age

/-- predict, lines 199-209 (numeric content; the .cpu() device effect is
modelled by predictT below).  Branches reproduce which side-feature
arguments are forwarded in each feature mode. -/
def PointFM.predict (m : PointFM) (u i : List Nat)
    (g a : Option (List Nat)) : Option (List ℚ) :=
  if m.feature = 0 then m.forward u i g none
  else if m.feature = 1 then m.forward u i none a
  else if m.feature = 2 then m.forward u i g a
  else m.forward u i none none

/-- Spec-side scoring formula for feature == 2, written from the spec's
words (section 4.2 steps 1 and 4): base score dot(eu, ei) + user_bias +
item_bias + global_bias, plus the four cross terms gender·user,
gender·item, age·user, age·item, plus age·gender, plus gender_bias +
age_bias.  Stated per example, to be compared with forwardB. -/
def specScoreF2 (p : FMParams) (u i g a : Nat) : ℚ :=
  dotList (rowOf p.embed_user u) (rowOf p.embed_item i)
    + biasOf p.u_bias u + biasOf p.i_bias i + p.bias_
    + dotList (rowOf p.embed_gender g) (rowOf p.embed_user u)
    + dotList (rowOf p.embed_gender g) (rowOf p.embed_item i)
    + dotList (rowOf p.embed_age a) (rowOf p.embed_user u)
    + dotList (rowOf p.embed_age a) (rowOf p.embed_item i)
    + dotList (rowOf p.embed_age a) (rowOf p.embed_gender g)
    + biasOf p.g_bias g + biasOf p.a_bias a

/-- Compute devices. -/
inductive Dev where
  | gpu
  | cpu
  deriving DecidableEq

/-- Lines 124-127: one-time device selection at fit start (torch.cuda
availability decides between self.cuda() and self.cpu()). -/
def selectDevice (avail : Bool) : Dev :=
  if avail then Dev.gpu else Dev.cpu

/-- tensor.cuda(): succeeds with a GPU-resident tensor when CUDA is
available, raises a RuntimeError otherwise. -/
def tensorCuda (avail : Bool) : Except FitError Dev :=
  if avail then Except.ok Dev.gpu else Except.error FitError.deviceErr

/-- Lines 146-156: per-batch tensor movement.  user, item and label are
sent to .cuda() unconditionally; gender and/or age only in the feature
modes that use them.  Returns the devices of (user, item, label, gender,
age). -/
def moveBatch (avail : Bool) (feature : Int) :
    Except FitError (Dev × Dev × Dev × Option Dev × Option Dev) :=
  match tensorCuda avail with
  | Except.error e => Except.error e
  | Except.ok du =>
    match tensorCuda avail with
    | Except.error e => Except.error e
    | Except.ok di =>
      match tensorCuda avail with
      | Except.error e => Except.error e
      | Except.ok dl =>
        if feature = 0 then
          match tensorCuda avail with
          | Except.error e => Except.error e
          | Except.ok dg => Except.ok (du, di, dl, some dg, none)
        else if feature = 1 then
          match tensorCuda avail with
          | Except.error e => Except.error e
          | Except.ok da => Except.ok (du, di, dl, none, some da)
        else if feature = 2 then
          match tensorCuda avail with
          | Except.error e => Except.error e
          | Except.ok dg =>
            match tensorCuda avail with
            | Except.error e => Except.error e
            | Except.ok da => Except.ok (du, di, dl, some dg, some da)
        else
          Except.ok (du, di, dl, none, none)

/-- Float-level value classification, for the line-182 guard: a torch
scalar is a finite float, NaN, or an infinity. -/
inductive FloatVal where
  | finite (q : ℚ)
  | nan
  | inf
  | neginf
  deriving DecidableEq

/-- torch.isnan: true exactly on NaN; both infinities are not NaN. -/
def torchIsnan : FloatVal → Bool
  | FloatVal.nan => true
  | _ => false

/-- Lines 182-186 at float level: the guard on the combined batch loss
followed by loss.backward(); optimizer.step().  Returns ok true when the
guard passes and the backward pass and parameter update execute; returns
the ValueError when the guard fires. -/
def lossGuardStep (loss : FloatVal) : Except FitError Bool :=
  if torchIsnan loss then Except.error FitError.numericErr else Except.ok true

/-- nn.BCEWithLogitsLoss(reduction='sum') applied at line 168: the summed
binary cross-entropy with logits, per example log(1 + exp(x)) - x * y
(the mathematical value of the numerically-stabilised torch kernel). -/
noncomputable def criterionCL (pred label : List ℚ) : ℝ :=
  ((pred.zip label).map
    (fun xy => Real.log (1 + Real.exp (xy.1 : ℝ)) - (xy.1 : ℝ) * (xy.2 : ℝ))).sum

/-- nn.MSELoss(reduction='sum') applied at line 168: summed squared error. -/
noncomputable def criterionSL (pred label : List ℚ) : ℝ :=
  ((pred.zip label).map (fun xy => ((xy.1 : ℝ) - (xy.2 : ℝ)) ^ 2)).sum

/-- weight.norm(p=1): sum of absolute values over the whole table. -/
def l1norm (w : List (List ℚ)) : ℚ :=
  (w.map (fun row => (row.map (fun x => |x|)).sum)).sum

/-- Sum of squares over the whole table. -/
def sqSum (w : List (List ℚ)) : ℚ :=
  (w.map (fun row => (row.map (fun x => x ^ 2)).sum)).sum

/-- weight.norm(): the Frobenius norm, square root of the sum of squares. -/
noncomputable def l2norm (w : List (List ℚ)) : ℝ :=
  Real.sqrt ((sqSum w : ℚ) : ℝ)

/-- Lines 169-180: the regularization penalties added to the criterion.
reg_1 times the L1 norms and reg_2 times the L2 norms of the full item and
user tables, plus the same structure for whichever side-feature tables the
feature mode activates. -/
noncomputable def regTerms (reg1 reg2 : ℚ) (feature : Int) (p : FMParams) : ℝ :=
  (reg1 : ℝ) * (((l1norm p.embed_item : ℚ) : ℝ) + ((l1norm p.embed_user : ℚ) : ℝ))
    + (reg2 : ℝ) * (l2norm p.embed_item + l2norm p.embed_user)
    + (if feature = 0 then
        (reg1 : ℝ) * ((l1norm p.embed_gender : ℚ) : ℝ)
          + (reg2 : ℝ) * l2norm p.embed_gender
      else if feature = 1 then
        (reg1 : ℝ) * ((l1norm p.embed_age : ℚ) : ℝ)
          + (reg2 : ℝ) * l2norm p.embed_age
      else if feature = 2 then
        (reg1 : ℝ) * (((l1norm p.embed_gender : ℚ) : ℝ) + ((l1norm p.embed_age : ℚ) : ℝ))
          + (reg2 : ℝ) * (l2norm p.embed_gender + l2norm p.embed_age)
      else 0)

/-- Lines 159-166: the forward call inside fit, passing exactly the
side-feature arguments the configured feature mode requires, over the
current parameter state p. -/
def fitForward (m : PointFM) (p : FMParams) (b : Batch) : Option (List ℚ) :=
  if m.feature = 0 then forwardB m.feature p b.user b.item (some b.gender) none
  else if m.feature = 1 then forwardB m.feature p b.user b.item none (some b.age)
  else if m.feature = 2 then forwardB m.feature p b.user b.item (some b.gender) (some b.age)
  else forwardB m.feature p b.user b.item none none

/-- Lines 168-180: the combined scalar loss of one batch, criterion on
the predictions plus the regularization penalties, over the current
parameter state p. -/
noncomputable def batchLoss (m : PointFM) (crit : List ℚ → List ℚ → ℝ)
    (p : FMParams) (b : Batch) : Option ℝ :=
  match fitForward m p b with
  | none => none
  | some pred => some (crit pred b.label + regTerms m.reg_1 m.reg_2 m.feature p)

/-- Exact real arithmetic never produces a NaN, so the line-182 guard can
never fire in this model; the float-level behaviour of the guard is
modelled by torchIsnan / lossGuardStep above. -/
def torchIsnanR (_x : ℝ) : Bool := false

/-- Lines 146-189, the body of the inner batch loop: move the batch
tensors, compute the prediction and the combined loss, run the isnan
guard, then the external backward/SGD update upd, returning the updated
parameters and the batch's scalar loss value. -/
noncomputable def batchStep (avail : Bool) (m : PointFM)
    (crit : List ℚ → List ℚ → ℝ) (upd : FMParams → Batch → FMParams)
    (p : FMParams) (b : Batch) : Except FitError (FMParams × ℝ) :=
  match moveBatch avail m.feature with
  | Except.error e => Except.error e
  | Except.ok _ =>
    match batchLoss m crit p b with
    | none => Except.error FitError.lookupErr
    | some loss =>
      if torchIsnanR loss then Except.error FitError.numericErr
      else Except.ok (upd p b, loss)

/-- The inner loop over the batch iterator (lines 146-189): threads the
parameter state and accumulates current_loss (initialised to 0 at line
142). -/
noncomputable def runBatches (step : FMParams → Batch → Except FitError (FMParams × ℝ)) :
    List Batch → FMParams → ℝ → Except FitError (FMParams × ℝ)
  | [], p, acc => Except.ok (p, acc)
  | b :: bs, p, acc =>
    match step p b with
    | Except.error e => Except.error e
    | Except.ok (p', l) => runBatches step bs p' (acc + l)

/-- The epoch loop, lines 139-197: each epoch runs the batch loop from a
fresh accumulator, then checks delta = current_loss - last_loss; with
early_stop on and |delta| < 1e-5 the loop breaks, otherwise last_loss is
updated and the next epoch runs.  Returns the final parameters and the
list of per-epoch total losses, in order, for the epochs that ran. -/
noncomputable def runEpochs (es : Bool)
    (step : FMParams → Batch → Except FitError (FMParams × ℝ))
    (batches : List Batch) : Nat → FMParams → ℝ → Except FitError (FMParams × List ℝ)
  | 0, p, _last => Except.ok (p, [])
  | n + 1, p, last =>
    match runBatches step batches p 0 with
    | Except.error e => Except.error e
    | Except.ok (p', total) =>
      if |total - last| < (1e-5 : ℝ) ∧ es = true then Except.ok (p', [total])
      else
        match runEpochs es step batches n p' total with
        | Except.error e => Except.error e
        | Except.ok (p'', rest) => Except.ok (p'', total :: rest)

/-- fit, lines 123-197: select the device once, pick the criterion from
loss_type -- any other value is an immediate ValueError, raised before the
epoch loop and before the batch iterator is touched -- then run the epoch
loop with last_loss initialised to 0 (line 138).  upd is the external
autograd+SGD parameter update. -/
noncomputable def PointFM.fit (m : PointFM) (avail : Bool)
    (upd : FMParams → Batch → FMParams) (batches : List Batch) :
    Except FitError (FMParams × List ℝ) :=
  let _dev := selectDevice avail
  if m.loss_type = "CL" then
    runEpochs m.early_stop (batchStep avail m criterionCL upd) batches m.epochs m.params 0
  else if m.loss_type = "SL" then
    runEpochs m.early_stop (batchStep avail m criterionSL upd) batches m.epochs m.params 0
  else Except.error (FitError.configErr m.loss_type)

/-- The previous-epoch loss the early-stop delta of epoch j (0-based in
the trace) is measured against: the initial last_loss for the first
epoch, afterwards the preceding epoch's total. -/
def prevLoss (last : ℝ) (t : List ℝ) (j : Nat) : ℝ :=
  if j = 0 then last else t.getD (j - 1) 0

/-- Autograd/device wrapper around a result tensor: its numeric content,
the device it lives on, and whether it is attached to the autograd graph
(torch: an operation on a requires-grad parameter yields a tracked
tensor). -/
structure TTensor where
  data : Option (List ℚ)
  device : Dev
  tracked : Bool
  deriving DecidableEq

/-- tensor.cpu(): moves to host memory, keeps the autograd attachment. -/
def TTensor.cpu (t : TTensor) : TTensor := ⟨t.data, Dev.cpu, t.tracked⟩

/-- tensor.detach(): drops the autograd attachment (never called by
PointFM.predict). -/
def TTensor.detach (t : TTensor) : TTensor := ⟨t.data, t.device, false⟩

/-- forward with the torch runtime effects made explicit: the model lives
on dev, and since every output is computed from requires-grad parameters
the result is attached to the autograd graph. -/
def forwardT (m : PointFM) (dev : Dev) (user item : List Nat)
    (gender age : Option (List Nat)) : TTensor :=
  ⟨forwardB m.feature m.params user item gender age, dev, true⟩

/-- predict, lines 199-209, with the device/autograd effects explicit:
the per-feature forward call followed by .cpu().  No detach() and no
no_grad context appear in the source. -/
def predictT (m : PointFM) (dev : Dev) (u i : List Nat)
    (g a : Option (List Nat)) : TTensor :=
  if m.feature = 0 then (forwardT m dev u i g none).cpu
  else if m.feature = 1 then (forwardT m dev u i none a).cpu
  else if m.feature = 2 then (forwardT m dev u i g a).cpu
  else (forwardT m dev u i none none).cpu

/-- The model with the regularization coefficients replaced and every
other field held fixed. -/
def withRegs (m : PointFM) (r1 r2 : ℚ) : PointFM :=
  ⟨m.epochs, m.lr, r1, r2, m.loss_type, m.feature, m.early_stop, m.params⟩

/-- Concrete parameter bundle for the example models: one user, one item,
factors = 2, nonzero weights everywhere. -/
def pEx : FMParams :=
  ⟨[[1, 2]], [[3, -1]], [5], [7], [[1, 1]], [2], [[0, 1]], [3], 10⟩

/-- Parameter bundle with empty tables. -/
def pZero : FMParams := ⟨[], [], [], [], [], [], [], [], 0⟩

/-- An external update function that leaves the parameters unchanged (a
zero-gradient SGD step). -/
def updId : FMParams → Batch → FMParams := fun p _ => p

/-- A one-example batch. -/
def bEx : Batch := ⟨[0], [0], [0], [0], [1]⟩

/-- An empty batch. -/
def bEmpty : Batch := ⟨[], [], [], [], []⟩

/-- Example model, feature mode 2 (gender and age both active). -/
def mEx2 : PointFM := ⟨20, 1 / 1000, 1 / 1000, 1 / 1000, "CL", 2, true, pEx⟩

/-- Example model, feature mode 0 (gender only). -/
def mEx0 : PointFM := ⟨20, 1 / 1000, 1 / 1000, 1 / 1000, "CL", 0, true, pEx⟩

/-- Example model, feature mode 9 (outside 0/1/2: no side-features). -/
def mEx3 : PointFM := ⟨20, 1 / 1000, 1 / 1000, 1 / 1000, "CL", 9, true, pEx⟩

/-- Example model with an unsupported loss type. -/
def mXYZ : PointFM := ⟨20, 1 / 1000, 1 / 1000, 1 / 1000, "XYZ", 1, true, pEx⟩

/-- Example model for the epoch-loop theorems: 3 epochs, CL loss. -/
def mW4 : PointFM := ⟨3, 1 / 1000, 1 / 1000, 1 / 1000, "CL", 1, true, pEx⟩

/-- Example model for the first-epoch early-stop theorem: 7 epochs, SL loss. -/
def mW9 : PointFM := ⟨7, 1 / 1000, 1 / 1000, 1 / 1000, "SL", 1, true, pEx⟩

/-- Example model for the CPU-only fit run: 1 epoch, SL loss. -/
def mCPU : PointFM := ⟨1, 1 / 1000, 1 / 1000, 1 / 1000, "SL", 1, true, pEx⟩

/-- Example model over empty tables, feature mode 2, SL loss. -/
def mZero2 : PointFM := ⟨20, 1 / 1000, 1 / 1000, 1 / 1000, "SL", 2, true, pZero⟩

/-- Helper: a successful forward pass returns one score per batch
example. -/
theorem forwardB_length (feature : Int) (p : FMParams) (user item : List Nat)
    (gender age : Option (List Nat)) (l : List ℚ)
    (h : forwardB feature p user item gender age = some l) :
    l.length = user.length := by
  unfold forwardB at h
  split_ifs at h
  · cases gender with
    | none => exact Option.noConfusion h
    | some gs =>
      rw [Option.some.injEq] at h
      subst h
      simp
  · cases age with
    | none => exact Option.noConfusion h
    | some av =>
      rw [Option.some.injEq] at h
      subst h
      simp
  · cases gender with
    | none => exact Option.noConfusion h
    | some gs =>
      cases age with
      | none => exact Option.noConfusion h
      | some av =>
        rw [Option.some.injEq] at h
        subst h
        simp
  · rw [Option.some.injEq] at h
    subst h
    simp

/-- C1: with feature == 2, forward returns exactly the flat list of
per-example scores, in batch order, each equal to the spec formula: base
score + the four cross terms + age·gender + gender_bias + age_bias; and
predict hands its arguments straight to forward. -/
theorem fm_feature2_score_spec (m : PointFM) (user item gender age : List Nat)
    (h : m.feature = 2) :
    m.forward user item (some gender) (some age)
      = some ((List.range user.length).map fun k =>
          specScoreF2 m.params (user.getD k 0) (item.getD k 0)
            (gender.getD k 0) (age.getD k 0))
    ∧ m.predict user item (some gender) (some age)
      = m.forward user item (some gender) (some age) := by
  constructor
  · unfold PointFM.forward forwardB
    rw [h]
    norm_num
    intro k _
    unfold specScoreF2 baseScore
    ring
  · unfold PointFM.predict
    rw [h]
    norm_num

/-- Witness for fm_feature2_score_spec at a concrete model and batch. -/
theorem fm_feature2_score_spec_witness :
    mEx2.forward [0] [0] (some [0]) (some [0]) = some [(35 : ℚ)] := by
  have h := (fm_feature2_score_spec mEx2 [0] [0] [0] [0] rfl).1
  rw [h]
  norm_num [specScoreF2, dotList, rowOf, biasOf, mEx2, pEx, List.range_succ]

/-- C6: with a feature mode outside 0/1/2, predict on a one-example
batch returns exactly the base score (user/item interaction and bias
terms only, no side-feature term), and the result is invariant under
changing the gender and/or age arguments. -/
theorem fm_feature_other_base_only (m : PointFM) (u i : Nat)
    (g a g' a' : Option (List Nat))
    (h0 : m.feature ≠ 0) (h1 : m.feature ≠ 1) (h2 : m.feature ≠ 2) :
    m.predict [u] [i] g a = some [baseScore m.params u i]
    ∧ m.predict [u] [i] g a = m.predict [u] [i] g' a' := by
  constructor
  · simp only [PointFM.predict, PointFM.forward, forwardB,
      if_neg h0, if_neg h1, if_neg h2]
    rfl
  · simp only [PointFM.predict, if_neg h0, if_neg h1, if_neg h2]

/-- Witness for fm_feature_other_base_only at feature mode 9. -/
theorem fm_feature_other_base_only_witness :
    mEx3.predict [0] [0] (some [1]) (some [2]) = some [(23 : ℚ)]
    ∧ mEx3.predict [0] [0] (some [1]) (some [2]) = mEx3.predict [0] [0] none none := by
  have h := fm_feature_other_base_only mEx3 0 0 (some [1]) (some [2]) none none
    (by decide) (by decide) (by decide)
  refine ⟨?_, h.2⟩
  rw [h.1]
  norm_num [baseScore, dotList, rowOf, biasOf, mEx3, pEx]

/-- C10: in feature modes 0/1/2, omitting the side-feature argument the
mode requires makes the side-feature embedding lookup fail (the None
default reaches the lookup); with any other feature mode the None
defaults are fine and predict succeeds. -/
theorem fm_missing_side_feature_fails (m : PointFM) (u i : List Nat) :
    (m.feature = 0 → ∀ a, m.predict u i none a = none)
    ∧ (m.feature = 1 → ∀ g, m.predict u i g none = none)
    ∧ (m.feature = 2 → ∀ g a, m.predict u i g none = none
        ∧ m.predict u i none a = none)
    ∧ (m.feature ≠ 0 → m.feature ≠ 1 → m.feature ≠ 2 →
        ∀ g a, (m.predict u i g a).isSome = true) := by
  refine ⟨?_, ?_, ?_, ?_⟩
  · intro h a
    simp [PointFM.predict, PointFM.forward, forwardB, h]
  · intro h g
    simp [PointFM.predict, PointFM.forward, forwardB, h]
  · intro h g a
    constructor <;> cases g <;> cases a <;>
      simp [PointFM.predict, PointFM.forward, forwardB, h]
  · intro h0 h1 h2 g a
    simp [PointFM.predict, PointFM.forward, forwardB,
      if_neg h0, if_neg h1, if_neg h2]

/-- Witness for fm_missing_side_feature_fails: feature mode 0 with the
gender argument left at its None default. -/
theorem fm_missing_side_feature_fails_witness :
    mEx0.predict [0] [0] none (some [0]) = none :=
  (fm_missing_side_feature_fails mEx0 [0] [0]).1 rfl (some [0])

/-- C8 counterexample: predict never detaches its result from the
autograd graph -- the source applies .cpu() but no detach()/no_grad -- so
at a concrete model and input the returned tensor is still
gradient-tracked, contradicting the claim that the result is detached
from any gradient context. -/
theorem fm_predict_tracked_counterexample :
    (predictT mEx2 Dev.gpu [0] [0] (some [0]) (some [0])).tracked = true := by
  rfl

/-- C8 amended: predict invokes the scoring function on exactly the
side-feature arguments of the configured feature mode, returns its
result moved to the CPU host with one score per input example, but the
result stays attached to the autograd graph (no detach is performed). -/
theorem fm_predict_host_result (m : PointFM) (dev : Dev) (u i : List Nat)
    (g a : Option (List Nat)) :
    (predictT m dev u i g a).device = Dev.cpu
    ∧ (predictT m dev u i g a).data = m.predict u i g a
    ∧ (predictT m dev u i g a).tracked = true
    ∧ ∀ l, (predictT m dev u i g a).data = some l → l.length = u.length := by
  refine ⟨?_, ?_, ?_, ?_⟩
  · unfold predictT TTensor.cpu
    split_ifs <;> rfl
  · unfold predictT PointFM.predict PointFM.forward forwardT TTensor.cpu
    split_ifs <;> rfl
  · unfold predictT TTensor.cpu forwardT
    split_ifs <;> rfl
  · intro l hl
    unfold predictT TTensor.cpu forwardT at hl
    dsimp only at hl
    split_ifs at hl
    · exact forwardB_length m.feature m.params u i g none l hl
    · exact forwardB_length m.feature m.params u i none a l hl
    · exact forwardB_length m.feature m.params u i g a l hl
    · exact forwardB_length m.feature m.params u i none none l hl

/-- Witness for fm_predict_host_result at a concrete model and input. -/
theorem fm_predict_host_result_witness :
    (predictT mEx2 Dev.gpu [0] [0] (some [0]) (some [0])).device = Dev.cpu
    ∧ (predictT mEx2 Dev.gpu [0] [0] (some [0]) (some [0])).data = some [(35 : ℚ)]
    ∧ [(35 : ℚ)].length = ([0] : List Nat).length := by
  obtain ⟨hdev, hdata, htr, hlen⟩ :=
    fm_predict_host_result mEx2 Dev.gpu [0] [0] (some [0]) (some [0])
  have hd : (predictT mEx2 Dev.gpu [0] [0] (some [0]) (some [0])).data
      = some [(35 : ℚ)] := by
    norm_num [predictT, forwardT, TTensor.cpu, PointFM.predict, PointFM.forward,
      forwardB, baseScore, dotList, rowOf, biasOf, mEx2, pEx, List.range_succ]
  exact ⟨hdev, hd, hlen [(35 : ℚ)] hd⟩

/-- C2: an unsupported loss_type makes fit raise the ValueError before
the epoch loop: the result is the configuration error whatever the batch
list is, and in particular it coincides with running fit on no batches at
all (the iterator is never consumed). -/
theorem fm_invalid_loss_type_fatal (m : PointFM) (avail : Bool)
    (upd : FMParams → Batch → FMParams) (batches : List Batch)
    (hCL : m.loss_type ≠ "CL") (hSL : m.loss_type ≠ "SL") :
    m.fit avail upd batches = Except.error (FitError.configErr m.loss_type)
    ∧ m.fit avail upd batches = m.fit avail upd [] := by
  have h : ∀ bs : List Batch,
      m.fit avail upd bs = Except.error (FitError.configErr m.loss_type) := by
    intro bs
    simp only [PointFM.fit]
    rw [if_neg hCL, if_neg hSL]
  exact ⟨h batches, (h batches).trans (h []).symm⟩

/-- Witness for fm_invalid_loss_type_fatal with loss_type "XYZ". -/
theorem fm_invalid_loss_type_fatal_witness :
    mXYZ.fit true updId [bEx] = Except.error (FitError.configErr "XYZ")
    ∧ mXYZ.fit true updId [bEx] = mXYZ.fit true updId [] :=
  fm_invalid_loss_type_fatal mXYZ true updId [bEx] (by decide) (by decide)

/-- C3: the line-182 guard tests torch.isnan only, so a NaN loss raises
the ValueError before backward/step, but an infinite loss -- equally
non-finite, and named in the code's own error message -- passes the guard
and the backward pass and parameter update still execute. -/
theorem fm_nan_guard_misses_infinity :
    lossGuardStep FloatVal.nan = Except.error FitError.numericErr
    ∧ lossGuardStep FloatVal.inf = Except.ok true
    ∧ lossGuardStep FloatVal.neginf = Except.ok true :=
  ⟨rfl, rfl, rfl⟩

/-- C5: fit selects the CPU for the model when CUDA is unavailable, but
the per-batch tensor moves are unconditional .cuda() calls, which fail
without a GPU in every feature mode, so a fit run on a CPU-only machine
aborts with the device error on its first batch instead of running on
the CPU; with a GPU available the batch goes to the GPU. -/
theorem fm_batch_cuda_move_requires_gpu :
    selectDevice false = Dev.cpu
    ∧ moveBatch false 0 = Except.error FitError.deviceErr
    ∧ moveBatch false 1 = Except.error FitError.deviceErr
    ∧ moveBatch false 2 = Except.error FitError.deviceErr
    ∧ moveBatch false 3 = Except.error FitError.deviceErr
    ∧ moveBatch true 2 = Except.ok (Dev.gpu, Dev.gpu, Dev.gpu, some Dev.gpu, some Dev.gpu)
    ∧ mCPU.fit false updId [bEx] = Except.error FitError.deviceErr := by
  refine ⟨rfl, rfl, rfl, rfl, rfl, rfl, rfl⟩

/-- The L1 norm of a table is non-negative. -/
theorem l1norm_nonneg (w : List (List ℚ)) : 0 ≤ l1norm w := by
  unfold l1norm
  refine List.sum_nonneg ?_
  intro x hx
  obtain ⟨row, _, rfl⟩ := List.mem_map.mp hx
  refine List.sum_nonneg ?_
  intro y hy
  obtain ⟨q, _, rfl⟩ := List.mem_map.mp hy
  exact abs_nonneg q

/-- The L2 norm of a table is non-negative. -/
theorem l2norm_nonneg (w : List (List ℚ)) : 0 ≤ l2norm w :=
  Real.sqrt_nonneg _

/-- Two-product monotonicity helper for the regularization terms. -/
theorem two_mul_mono (x x' y y' A B : ℝ) (hx : x ≤ x') (hy : y ≤ y')
    (hA : 0 ≤ A) (hB : 0 ≤ B) : x * A + y * B ≤ x' * A + y' * B :=
  add_le_add (mul_le_mul_of_nonneg_right hx hA) (mul_le_mul_of_nonneg_right hy hB)

/-- The regularization penalty is monotone in both coefficients. -/
theorem regTerms_mono (r1 r1' r2 r2' : ℚ) (f : Int) (p : FMParams)
    (h1 : r1 ≤ r1') (h2 : r2 ≤ r2') :
    regTerms r1 r2 f p ≤ regTerms r1' r2' f p := by
  have c1 : (r1 : ℝ) ≤ (r1' : ℝ) := by exact_mod_cast h1
  have c2 : (r2 : ℝ) ≤ (r2' : ℝ) := by exact_mod_cast h2
  have nI : (0 : ℝ) ≤ ((l1norm p.embed_item : ℚ) : ℝ) := by
    exact_mod_cast l1norm_nonneg p.embed_item
  have nU : (0 : ℝ) ≤ ((l1norm p.embed_user : ℚ) : ℝ) := by
    exact_mod_cast l1norm_nonneg p.embed_user
  have nG : (0 : ℝ) ≤ ((l1norm p.embed_gender : ℚ) : ℝ) := by
    exact_mod_cast l1norm_nonneg p.embed_gender
  have nA : (0 : ℝ) ≤ ((l1norm p.embed_age : ℚ) : ℝ) := by
    exact_mod_cast l1norm_nonneg p.embed_age
  have mI := l2norm_nonneg p.embed_item
  have mU := l2norm_nonneg p.embed_user
  have mG := l2norm_nonneg p.embed_gender
  have mA := l2norm_nonneg p.embed_age
  unfold regTerms
  split_ifs
  · exact add_le_add
      (two_mul_mono _ _ _ _ _ _ c1 c2 (add_nonneg nI nU) (add_nonneg mI mU))
      (two_mul_mono _ _ _ _ _ _ c1 c2 nG mG)
  · exact add_le_add
      (two_mul_mono _ _ _ _ _ _ c1 c2 (add_nonneg nI nU) (add_nonneg mI mU))
      (two_mul_mono _ _ _ _ _ _ c1 c2 nA mA)
  · exact add_le_add
      (two_mul_mono _ _ _ _ _ _ c1 c2 (add_nonneg nI nU) (add_nonneg mI mU))
      (two_mul_mono _ _ _ _ _ _ c1 c2 (add_nonneg nG nA) (add_nonneg mG mA))
  · exact add_le_add
      (two_mul_mono _ _ _ _ _ _ c1 c2 (add_nonneg nI nU) (add_nonneg mI mU))
      le_rfl

/-- C7: for a fixed batch, criterion and parameter state, the combined
per-batch loss computed in fit never decreases when reg_1 or reg_2 is
increased: each coefficient multiplies a sum of non-negative norms of the
full embedding tables. -/
theorem fm_reg_monotone (m : PointFM) (crit : List ℚ → List ℚ → ℝ)
    (r1 r1' r2 r2' : ℚ) (p : FMParams) (b : Batch) (v v' : ℝ)
    (h1 : r1 ≤ r1') (h2 : r2 ≤ r2')
    (hv : batchLoss (withRegs m r1 r2) crit p b = some v)
    (hv' : batchLoss (withRegs m r1' r2') crit p b = some v') :
    v ≤ v' := by
  have hff : fitForward (withRegs m r1 r2) p b = fitForward m p b := rfl
  have hff' : fitForward (withRegs m r1' r2') p b = fitForward m p b := rfl
  unfold batchLoss at hv hv'
  rw [hff] at hv
  rw [hff'] at hv'
  cases hpred : fitForward m p b with
  | none =>
    rw [hpred] at hv
    exact Option.noConfusion hv
  | some pred =>
    rw [hpred] at hv hv'
    rw [Option.some.injEq] at hv hv'
    subst hv
    subst hv'
    exact add_le_add_left (regTerms_mono r1 r1' r2 r2' m.feature p h1 h2) _

/-- Witness for fm_reg_monotone: empty tables and an empty batch, with
the coefficients raised from 0 to 1. -/
theorem fm_reg_monotone_witness :
    batchLoss (withRegs mZero2 0 0) criterionSL pZero bEmpty = some 0
    ∧ batchLoss (withRegs mZero2 1 1) criterionSL pZero bEmpty = some 0
    ∧ (0 : ℝ) ≤ (0 : ℝ) := by
  have hv : batchLoss (withRegs mZero2 0 0) criterionSL pZero bEmpty = some 0 := by
    simp [batchLoss, fitForward, forwardB, criterionSL, regTerms, l1norm, l2norm,
      sqSum, Real.sqrt_zero, withRegs, mZero2, pZero, bEmpty]
  have hv' : batchLoss (withRegs mZero2 1 1) criterionSL pZero bEmpty = some 0 := by
    simp [batchLoss, fitForward, forwardB, criterionSL, regTerms, l1norm, l2norm,
      sqSum, Real.sqrt_zero, withRegs, mZero2, pZero, bEmpty]
  exact ⟨hv, hv', fm_reg_monotone mZero2 criterionSL 0 1 0 1 pZero bEmpty 0 0
    (by norm_num) (by norm_num) hv hv'⟩

/-- Shifting prevLoss across a cons: for epoch indices past the first,
the previous-loss reference moves into the tail trace. -/
theorem prevLoss_cons (last x : ℝ) (t : List ℝ) (j : Nat) :
    prevLoss last (x :: t) (j + 1) = prevLoss x t j := by
  cases j with
  | zero => simp [prevLoss]
  | succ j' => simp [prevLoss]

/-- Loop-control invariant of the epoch loop: a successful run executes
at most n epochs; every epoch that was followed by another one had not
met the early-stop condition; and a run that used fewer than n epochs
stopped because early_stop was on and the last epoch's delta was below
1e-5. -/
theorem runEpochs_ok_spec (es : Bool)
    (step : FMParams → Batch → Except FitError (FMParams × ℝ))
    (batches : List Batch) (n : Nat) :
    ∀ (p : FMParams) (last : ℝ) (pf : FMParams) (t : List ℝ),
      runEpochs es step batches n p last = Except.ok (pf, t) →
      t.length ≤ n
      ∧ (∀ j, j + 1 < t.length →
          ¬(|t.getD j 0 - prevLoss last t j| < (1e-5 : ℝ) ∧ es = true))
      ∧ (t.length < n → t ≠ [] ∧ es = true
          ∧ |t.getD (t.length - 1) 0 - prevLoss last t (t.length - 1)| < (1e-5 : ℝ)) := by
  induction n with
  | zero =>
    intro p last pf t h
    simp only [runEpochs] at h
    injection h with h'
    injection h' with hp ht
    subst ht
    refine ⟨by simp, ?_, ?_⟩
    · intro j hj
      simp only [List.length_nil] at hj
      omega
    · intro hlen
      simp only [List.length_nil] at hlen
      omega
  | succ n ih =>
    intro p last pf t h
    simp only [runEpochs] at h
    split at h
    · exact Except.noConfusion h
    · rename_i p' total heq
      split at h
      · rename_i hcond
        injection h with h'
        injection h' with hp ht
        subst ht
        refine ⟨by simp, ?_, ?_⟩
        · intro j hj
          simp only [List.length_cons, List.length_nil] at hj
          omega
        · intro _
          refine ⟨by simp, hcond.2, ?_⟩
          simpa [prevLoss] using hcond.1
      · rename_i hcond
        split at h
        · exact Except.noConfusion h
        · rename_i p'' rest hrec
          injection h with h'
          injection h' with hp ht
          subst ht
          obtain ⟨ih1, ih2, ih3⟩ := ih p' total p'' rest hrec
          refine ⟨?_, ?_, ?_⟩
          · simpa using Nat.succ_le_succ ih1
          · intro j hj
            cases j with
            | zero =>
              intro hc
              exact hcond ⟨by simpa [prevLoss] using hc.1, hc.2⟩
            | succ j' =>
              have hj' : j' + 1 < rest.length := by
                simp only [List.length_cons] at hj
                omega
              have hmain := ih2 j' hj'
              intro hc
              refine hmain ⟨?_, hc.2⟩
              have e1 : (total :: rest).getD (j' + 1) 0 = rest.getD j' 0 := rfl
              rw [← e1, ← prevLoss_cons total]
              exact hc.1
          · intro hlen
            have hlen' : rest.length < n := by
              simp only [List.length_cons] at hlen
              omega
            obtain ⟨hne, hes, hsm⟩ := ih3 hlen'
            have hpos : 0 < rest.length := List.length_pos.mpr hne
            obtain ⟨r, hr⟩ : ∃ r, rest.length = r + 1 := ⟨rest.length - 1, by omega⟩
            refine ⟨by simp, hes, ?_⟩
            have hidx : (total :: rest).length - 1 = r + 1 := by
              simp only [List.length_cons]
              omega
            rw [hidx, prevLoss_cons last]
            have e1 : (total :: rest).getD (r + 1) 0 = rest.getD r 0 := rfl
            rw [e1]
            have h2 : rest.length - 1 = r := by omega
            rw [h2] at hsm
            exact hsm

/-- C4: whenever fit completes normally, its per-epoch loss trace has at
most epochs entries; with early_stop on, an epoch was followed by
another one only when its delta against the recorded previous total
(initially 0) was not below 1e-5; and a run that stopped before
exhausting the epoch budget did so because early_stop was on and the
final epoch's delta was below 1e-5. -/
theorem fm_fit_epoch_loop_control (m : PointFM) (avail : Bool)
    (upd : FMParams → Batch → FMParams) (batches : List Batch)
    (pf : FMParams) (t : List ℝ)
    (h : m.fit avail upd batches = Except.ok (pf, t)) :
    t.length ≤ m.epochs
    ∧ (∀ j, j + 1 < t.length →
        ¬(|t.getD j 0 - prevLoss 0 t j| < (1e-5 : ℝ) ∧ m.early_stop = true))
    ∧ (t.length < m.epochs → t ≠ [] ∧ m.early_stop = true
        ∧ |t.getD (t.length - 1) 0 - prevLoss 0 t (t.length - 1)| < (1e-5 : ℝ)) := by
  simp only [PointFM.fit] at h
  split at h
  · exact runEpochs_ok_spec m.early_stop _ batches m.epochs m.params 0 pf t h
  · split at h
    · exact runEpochs_ok_spec m.early_stop _ batches m.epochs m.params 0 pf t h
    · exact Except.noConfusion h

/-- Witness for fm_fit_epoch_loop_control: a 3-epoch model whose single
run stops after one epoch (no batches, so the first delta is 0 - 0). -/
theorem fm_fit_epoch_loop_control_witness :
    mW4.fit true updId [] = Except.ok (pEx, [(0 : ℝ)])
    ∧ [(0 : ℝ)].length ≤ mW4.epochs := by
  have hc : |(0 : ℝ) - 0| < (1e-5 : ℝ) ∧ True := ⟨by norm_num, trivial⟩
  have h : mW4.fit true updId [] = Except.ok (pEx, [(0 : ℝ)]) := by
    show runEpochs true (batchStep true mW4 criterionCL updId) [] (2 + 1) pEx 0
      = Except.ok (pEx, [(0 : ℝ)])
    simp only [runEpochs, runBatches]
    rw [if_pos hc]
  exact ⟨h, (fm_fit_epoch_loop_control mW4 true updId [] pEx [(0 : ℝ)] h).1⟩

/-- C9: last_loss starts at 0 (line 138), so with early_stop on and at
least one configured epoch, a first epoch whose accumulated total loss
has absolute value below 1e-5 ends the whole run: fit returns after
exactly that one epoch, its delta having been measured against 0 rather
than against any real previous epoch. -/
theorem fm_first_epoch_early_stop (m : PointFM) (avail : Bool)
    (upd : FMParams → Batch → FMParams) (batches : List Batch)
    (p1 : FMParams) (t0 : ℝ)
    (hES : m.early_stop = true) (hE : 1 ≤ m.epochs)
    (hLT : m.loss_type = "CL" ∨ m.loss_type = "SL")
    (hCL : m.loss_type = "CL" →
      runBatches (batchStep avail m criterionCL upd) batches m.params 0
        = Except.ok (p1, t0))
    (hSL : m.loss_type = "SL" →
      runBatches (batchStep avail m criterionSL upd) batches m.params 0
        = Except.ok (p1, t0))
    (hSmall : |t0| < (1e-5 : ℝ)) :
    m.fit avail upd batches = Except.ok (p1, [t0]) := by
  obtain ⟨n, hn⟩ : ∃ n, m.epochs = n + 1 := ⟨m.epochs - 1, by omega⟩
  have hcc : |t0 - 0| < (1e-5 : ℝ) ∧ True := ⟨by rwa [sub_zero], trivial⟩
  rcases hLT with hL | hL
  · have hB := hCL hL
    simp only [PointFM.fit, hL]
    rw [if_pos trivial, hES, hn]
    simp only [runEpochs, hB]
    rw [if_pos hcc]
  · have hB := hSL hL
    simp only [PointFM.fit, hL]
    rw [if_neg (by decide), if_pos trivial, hES, hn]
    simp only [runEpochs, hB]
    rw [if_pos hcc]

/-- Witness for fm_first_epoch_early_stop: a 7-epoch SL model run with no
batches, whose first-epoch total 0 stops the loop at once. -/
theorem fm_first_epoch_early_stop_witness :
    |(0 : ℝ)| < (1e-5 : ℝ) ∧ mW9.fit true updId [] = Except.ok (pEx, [(0 : ℝ)]) :=
  ⟨by norm_num, fm_first_epoch_early_stop mW9 true updId [] pEx 0 rfl (by decide)
    (Or.inr rfl) (fun hc => absurd hc (by decide)) (fun _ => rfl) (by norm_num)⟩
